import Mathlib

/-!
Shallow embedding of the myco-mentor-express backend.

The embedding covers the environmental-data aggregation pipeline
(src/routes/environmentalRoutes.js) and the marketplace CRUD route handlers
(src/unnamed/part_000).  Machine numbers are modelled as rationals (ℚ) except
for the trigonometric pH computation, which uses ℝ; JavaScript NaN is modelled
by Option where it can arise.  Network calls and random draws are passed to the
embedded functions as explicit parameters describing their outcomes.
-/

namespace MycoMentor

/-- JSON scalar values appearing in response bodies: JSON distinguishes
numbers from strings, which matters for the pH field. -/
inductive JVal
  | num (q : ℚ)
  | str (s : String)
deriving DecidableEq

/-- A GeoJSON-style point; the coordinates are not inspected by the routes
modelled here, only stored and copied. -/
structure GeoPoint where
  lng : ℚ
  lat : ℚ
deriving DecidableEq

/-- A marketplace listing document, with the fields destructured by the
routes in src/unnamed/part_000.  Timestamps are rational milliseconds. -/
structure Listing where
  id : String
  seller : String
  title : String
  description : String
  mushroomType : String
  price : ℚ
  quantity : ℚ
  contactName : String
  contactPhone : String
  contactEmail : String
  location : GeoPoint
  images : List String
  updatedAt : ℚ
deriving DecidableEq

/-- Bodies of the HTTP responses produced by the embedded handlers. -/
inductive RespBody
  | err (msg : String)
  | message (msg : String)
  | listingDoc (l : Listing)
  | envData (fields : List (String × JVal))
deriving DecidableEq

/-- An HTTP response: status code plus JSON body. -/
structure HttpResponse where
  status : ℕ
  body : RespBody
deriving DecidableEq

/-- JavaScript truthiness of an optional string value (absent and the empty
string are falsy). -/
def truthyStr : Option String → Bool
  | none => false
  | some s => s ≠ ""

/-- Modelled external ODM contract: a well-formed ObjectId is a 24-character
hexadecimal string (the identifiers relevant here are either such strings or
clearly malformed ones like "not-an-id"). -/
def isValidObjectId (s : String) : Bool :=
  s.length = 24 &&
    s.data.all fun c => c.isDigit || ('a' ≤ c && c ≤ 'f') || ('A' ≤ c && c ≤ 'F')

/-- Error thrown by the document mapper; the routes inspect its kind field. -/
structure MongoErr where
  kind : String
deriving DecidableEq

/-- Modelled external ODM contract: Listing.findById resolves with the
matching document (or null), and rejects with a cast error of kind
"ObjectId" when the identifier is malformed. -/
def findById (db : List Listing) (id : String) : Except MongoErr (Option Listing) :=
  if isValidObjectId id then .ok (db.find? fun l => l.id = id)
  else .error { kind := "ObjectId" }

/-- GET /api/marketplace/:id (src/unnamed/part_000 lines 27-47).  The
populate of the seller display name is not modelled; it does not affect
status codes or stored documents. -/
def getListingHandler (db : List Listing) (id : String) : HttpResponse :=
  match findById db id with
  | .error e =>
      if e.kind = "ObjectId" then ⟨404, .err "Listing not found"⟩
      else ⟨500, .err "Server error"⟩
  | .ok none => ⟨404, .err "Listing not found"⟩
  | .ok (some l) => ⟨200, .listingDoc l⟩

/-- The request body of PUT /api/marketplace/:id as destructured by the
route; none models an absent (undefined) field. -/
structure UpdateBody where
  title : Option String := none
  description : Option String := none
  mushroomType : Option String := none
  price : Option ℚ := none
  quantity : Option ℚ := none
  contactName : Option String := none
  contactPhone : Option String := none
  contactEmail : Option String := none
  location : Option GeoPoint := none
  images : Option (List String) := none
deriving DecidableEq

/-- Field update block of PUT /api/marketplace/:id (src/unnamed/part_000
lines 124-135).  String and numeric fields are guarded by JavaScript
truthiness (`if (title) ...`), so an empty string or 0 is ignored;
contactEmail is guarded by `!== undefined` and is assigned whenever present;
location and images are objects/arrays, truthy whenever present. -/
def applyUpdate (l : Listing) (b : UpdateBody) (nowTs : ℚ) : Listing :=
  { l with
    title := match b.title with
      | some t => if t ≠ "" then t else l.title
      | none => l.title
    description := match b.description with
      | some d => if d ≠ "" then d else l.description
      | none => l.description
    mushroomType := match b.mushroomType with
      | some m => if m ≠ "" then m else l.mushroomType
      | none => l.mushroomType
    price := match b.price with
      | some p => if p ≠ 0 then p else l.price
      | none => l.price
    quantity := match b.quantity with
      | some q => if q ≠ 0 then q else l.quantity
      | none => l.quantity
    contactName := match b.contactName with
      | some c => if c ≠ "" then c else l.contactName
      | none => l.contactName
    contactPhone := match b.contactPhone with
      | some c => if c ≠ "" then c else l.contactPhone
      | none => l.contactPhone
    contactEmail := b.contactEmail.getD l.contactEmail
    location := b.location.getD l.location
    images := b.images.getD l.images
    updatedAt := nowTs }

/-- PUT /api/marketplace/:id (src/unnamed/part_000 lines 97-153).  Returns
the response and the resulting database state. -/
def putListingHandler (db : List Listing) (id userId : String) (b : UpdateBody)
    (nowTs : ℚ) : HttpResponse × List Listing :=
  match findById db id with
  | .error e =>
      if e.kind = "ObjectId" then (⟨404, .err "Listing not found"⟩, db)
      else (⟨500, .err "Server error"⟩, db)
  | .ok none => (⟨404, .err "Listing not found"⟩, db)
  | .ok (some l) =>
      if l.seller ≠ userId then
        (⟨401, .err "Not authorized to update this listing"⟩, db)
      else
        (⟨200, .listingDoc (applyUpdate l b nowTs)⟩,
          db.map fun x => if x.id = id then applyUpdate l b nowTs else x)

/-- DELETE /api/marketplace/:id (src/unnamed/part_000 lines 158-184). -/
def deleteListingHandler (db : List Listing) (id userId : String) :
    HttpResponse × List Listing :=
  match findById db id with
  | .error e =>
      if e.kind = "ObjectId" then (⟨404, .err "Listing not found"⟩, db)
      else (⟨500, .err "Server error"⟩, db)
  | .ok none => (⟨404, .err "Listing not found"⟩, db)
  | .ok (some l) =>
      if l.seller ≠ userId then
        (⟨401, .err "Not authorized to delete this listing"⟩, db)
      else
        (⟨200, .message "Listing removed"⟩, db.filter fun x => x.id ≠ id)

/-- The object returned by fetchWeatherData. -/
structure WeatherResult where
  temperature : ℚ
  humidity : ℚ
deriving DecidableEq

/-- The fragment of the weather provider's payload that the route reads
(data.main). -/
structure OpenWeatherMain where
  temp : ℚ
  humidity : ℚ
deriving DecidableEq

/-- Randomized fallback of fetchWeatherData (src/routes/environmentalRoutes.js
lines 54-57 and 74-77): r1 and r2 model the two Math.random() draws, each in
[0,1); Math.round rounds half toward positive infinity, as does round. -/
def weatherFallback (r1 r2 : ℚ) : WeatherResult :=
  { temperature := ((round (20 + r1 * 10) : ℤ) : ℚ),
    humidity := ((round (40 + r2 * 40) : ℤ) : ℚ) }

/-- fetchWeatherData (src/routes/environmentalRoutes.js lines 47-79).
apiKey models process.env.OPENWEATHER_API_KEY (none = unset, and the empty
string is likewise falsy); net models the outcome of the axios request
(error = timeout, network failure or non-2xx throw). -/
def fetchWeatherData (apiKey : Option String) (net : Except Unit OpenWeatherMain)
    (r1 r2 : ℚ) : WeatherResult :=
  if ¬ truthyStr apiKey then weatherFallback r1 r2
  else
    match net with
    | .ok d => { temperature := ((round d.temp : ℤ) : ℚ), humidity := d.humidity }
    | .error _ => weatherFallback r1 r2

/-- The fragment of the sunrise-sunset provider's payload that the route
reads: the status field and the two parsed timestamps (rational
milliseconds). -/
structure SunApiData where
  status : String
  sunrise : ℚ
  sunset : ℚ
deriving DecidableEq

/-- Daytime intensity computation of fetchLightIntensity
(src/routes/environmentalRoutes.js lines 92-116), with now, sunrise and
sunset as millisecond timestamps. -/
def lightFromSun (now sunrise sunset : ℚ) : ℤ :=
  if now < sunrise ∨ sunset < now then 10
  else
    max 10 (min 100
      (round ((100 : ℚ) * (1 - 4 * ((now - sunrise) / (sunset - sunrise) - 1/2) ^ 2))))

/-- fetchLightIntensity (src/routes/environmentalRoutes.js lines 82-139).
net models the axios outcome; now is the current timestamp used against the
provider's sunrise/sunset; localHour models new Date().getHours() on the
server's local clock, used only on the failure path. -/
def fetchLightIntensity (net : Except Unit SunApiData) (now : ℚ)
    (localHour : ℤ) : ℤ :=
  match net with
  | .ok d =>
      if d.status = "OK" then lightFromSun now d.sunrise d.sunset
      else 50
  | .error _ =>
      if localHour < 6 ∨ 18 < localHour then 10
      else if 10 ≤ localHour ∧ localHour ≤ 14 then 90
      else 50

/-- Numeric value of a list of decimal digit characters. -/
def digitsToNat (cs : List Char) : ℕ :=
  cs.foldl (fun a c => 10 * a + (c.toNat - 48)) 0

/-- Model of JavaScript parseFloat restricted to plain decimal literals: an
optional sign followed by digits with an optional fractional part; the
longest such prefix is parsed and trailing characters are ignored
("12abc" parses as 12); none models NaN (no digit could be parsed).
Exponent and whitespace forms do not occur in this development. -/
def parseFloat (s : String) : Option ℚ :=
  let (sgn, rest) :=
    match s.data with
    | '-' :: cs => ((-1 : ℚ), cs)
    | '+' :: cs => ((1 : ℚ), cs)
    | cs => ((1 : ℚ), cs)
  let ip := rest.takeWhile Char.isDigit
  let rest2 := rest.dropWhile Char.isDigit
  let fp :=
    match rest2 with
    | '.' :: cs => cs.takeWhile Char.isDigit
    | _ => []
  if ip.isEmpty && fp.isEmpty then none
  else some (sgn * ((digitsToNat ip : ℚ) + (digitsToNat fp : ℚ) / 10 ^ fp.length))

/-- Decimal rendering of an integer number of tenths (for the values arising
here, which are nonnegative). -/
def renderTenths (n : ℤ) : String :=
  toString (n / 10) ++ "." ++ toString (n % 10)

/-- Number.prototype.toFixed(1): round to the nearest tenth, choosing the
larger candidate on ties (which is what round does), then render with one
fractional digit. -/
noncomputable def toFixed1 (x : ℝ) : String :=
  renderTenths (round (10 * x))

/-- The object returned by fetchWaterPH; its pH field is a string, produced
by toFixed. -/
structure PHResult where
  pH : String
deriving DecidableEq

/-- fetchWaterPH (src/routes/environmentalRoutes.js lines 142-157).  A
parseFloat result of none models NaN, which propagates through sin/cos,
addition and toFixed to the string "NaN"; nothing on that path throws, so
the catch branch returning pH '7.0' is unreachable. -/
noncomputable def fetchWaterPH (latitude longitude : String) : PHResult :=
  match parseFloat latitude, parseFloat longitude with
  | some lat, some lng =>
      { pH := toFixed1 (7.5 + (Real.sin (lat : ℝ) + Real.cos (lng : ℝ)) / 2) }
  | _, _ => { pH := "NaN" }

/-- GET /environmental-data (src/routes/environmentalRoutes.js lines 6-44).
latitude and longitude model the req.query entries (none = absent); wOut and
lOut model the settled outcomes of the two network-backed promises passed to
Promise.all (fetchWaterPH is synchronous and never rejects, so it is invoked
directly).  The second component of the result lists the fetchers invoked by
the handler; a rejection of either promise is caught once and produces the
single generic 500 response. -/
noncomputable def environmentalDataHandler (latitude longitude : Option String)
    (wOut : Except Unit WeatherResult) (lOut : Except Unit ℤ) :
    HttpResponse × List String :=
  if ¬ truthyStr latitude ∨ ¬ truthyStr longitude then
    (⟨400, .err "Latitude and longitude are required"⟩, [])
  else
    match wOut, lOut with
    | .ok w, .ok intensity =>
        (⟨200, .envData
            [("temperature", .num w.temperature),
             ("humidity", .num w.humidity),
             ("intensity", .num (intensity : ℚ)),
             ("pH", .str (fetchWaterPH (latitude.getD "") (longitude.getD "")).pH)]⟩,
         ["fetchWeatherData", "fetchLightIntensity", "fetchWaterPH"])
    | _, _ =>
        (⟨500, .err "Failed to fetch environmental data"⟩,
         ["fetchWeatherData", "fetchLightIntensity", "fetchWaterPH"])

/-- Bounds for round: if x is at least a and x + 1/2 is below b + 1 then
round x lies in [a, b]. -/
lemma round_bounds {α : Type} [LinearOrderedField α] [FloorRing α] (x : α) (a b : ℤ)
    (hlo : (a : α) ≤ x) (hhi : x + 1/2 < (b : α) + 1) : a ≤ round x ∧ round x ≤ b := by
  rw [round_eq]
  refine ⟨Int.le_floor.mpr (by linarith), ?_⟩
  have hb : ⌊x + 1/2⌋ < b + 1 := Int.floor_lt.mpr (by push_cast; linarith)
  omega

/-- A single decimal digit renders as a one-character string. -/
lemma length_toString_digit (m : ℤ) (h0 : 0 ≤ m) (h9 : m ≤ 9) :
    (toString m).length = 1 := by
  interval_cases m <;> decide

/-- Evaluation of the parseFloat model on the literal "0". -/
lemma parseFloat_zero : parseFloat "0" = some 0 := by
  simp [parseFloat, digitsToNat, List.takeWhile, List.dropWhile]

/-- C1: a GET /environmental-data request in which the latitude or the
longitude query parameter is absent is answered with status 400 and an error
object, and no fetcher is invoked for that request. -/
theorem environmentalData_missing_param_400 (latitude longitude : Option String)
    (h : latitude = none ∨ longitude = none)
    (wOut : Except Unit WeatherResult) (lOut : Except Unit ℤ) :
    environmentalDataHandler latitude longitude wOut lOut =
      (⟨400, .err "Latitude and longitude are required"⟩, []) := by
  rcases h with h | h <;> subst h <;> simp [environmentalDataHandler, truthyStr]

/-- Witness for C1 at a concrete request missing the latitude parameter. -/
theorem environmentalData_missing_param_400_witness :
    ((none : Option String) = none ∨ (some "5" : Option String) = none) ∧
    environmentalDataHandler none (some "5") (.ok ⟨25, 50⟩) (.ok 50) =
      (⟨400, .err "Latitude and longitude are required"⟩, []) :=
  ⟨Or.inl rfl,
   environmentalData_missing_param_400 none (some "5") (Or.inl rfl) (.ok ⟨25, 50⟩) (.ok 50)⟩

/-- C2 counterexample: a request in which both parameters are present but
the latitude is the empty string is answered 400 with no fetcher invoked,
not 200, because the guard tests JavaScript truthiness rather than
presence. -/
theorem environmentalData_empty_param_counterexample :
    (environmentalDataHandler (some "") (some "1") (.ok ⟨25, 50⟩) (.ok 50)).1.status = 400 ∧
    (environmentalDataHandler (some "") (some "1") (.ok ⟨25, 50⟩) (.ok 50)).1.status ≠ 200 ∧
    (environmentalDataHandler (some "") (some "1") (.ok ⟨25, 50⟩) (.ok 50)).2 = [] := by
  refine ⟨?_, ?_, ?_⟩ <;> simp [environmentalDataHandler, truthyStr]

/-- C2 (amended): for every request whose latitude and longitude parameters
are present and non-empty, the aggregator waits for all three fetchers and
responds 200 with exactly the object with keys temperature, humidity,
intensity and pH; if either network-backed promise rejects, the single
response is a generic 500 and no partial data is returned. -/
theorem environmentalData_aggregation_all_or_nothing (latitude longitude : Option String)
    (hlat : truthyStr latitude = true) (hlng : truthyStr longitude = true) :
    (∀ (w : WeatherResult) (i : ℤ),
      environmentalDataHandler latitude longitude (.ok w) (.ok i) =
        (⟨200, .envData
            [("temperature", .num w.temperature),
             ("humidity", .num w.humidity),
             ("intensity", .num (i : ℚ)),
             ("pH", .str (fetchWaterPH (latitude.getD "") (longitude.getD "")).pH)]⟩,
         ["fetchWeatherData", "fetchLightIntensity", "fetchWaterPH"])) ∧
    (∀ (wOut : Except Unit WeatherResult) (lOut : Except Unit ℤ),
      wOut = .error () ∨ lOut = .error () →
      environmentalDataHandler latitude longitude wOut lOut =
        (⟨500, .err "Failed to fetch environmental data"⟩,
         ["fetchWeatherData", "fetchLightIntensity", "fetchWaterPH"])) := by
  constructor
  · intro w i
    simp [environmentalDataHandler, hlat, hlng]
  · intro wOut lOut h
    rcases h with h | h <;> subst h
    · simp [environmentalDataHandler, hlat, hlng]
    · cases wOut <;> simp [environmentalDataHandler, hlat, hlng]

/-- Witness for C2 at the example coordinates 40.7 and -74.0. -/
theorem environmentalData_aggregation_all_or_nothing_witness :
    truthyStr (some "40.7") = true ∧ truthyStr (some "-74.0") = true ∧
    ((∀ (w : WeatherResult) (i : ℤ),
      environmentalDataHandler (some "40.7") (some "-74.0") (.ok w) (.ok i) =
        (⟨200, .envData
            [("temperature", .num w.temperature),
             ("humidity", .num w.humidity),
             ("intensity", .num (i : ℚ)),
             ("pH", .str (fetchWaterPH "40.7" "-74.0").pH)]⟩,
         ["fetchWeatherData", "fetchLightIntensity", "fetchWaterPH"])) ∧
    (∀ (wOut : Except Unit WeatherResult) (lOut : Except Unit ℤ),
      wOut = .error () ∨ lOut = .error () →
      environmentalDataHandler (some "40.7") (some "-74.0") wOut lOut =
        (⟨500, .err "Failed to fetch environmental data"⟩,
         ["fetchWeatherData", "fetchLightIntensity", "fetchWaterPH"]))) :=
  ⟨rfl, rfl,
   environmentalData_aggregation_all_or_nothing (some "40.7") (some "-74.0") rfl rfl⟩

/-- C3 counterexample: at latitude "0" and longitude "0" the pH field
produced by fetchWaterPH is the JSON string "8.0" (toFixed returns a
string), not the JSON number 8 required by the data model. -/
theorem fetchWaterPH_returns_string_counterexample :
    (fetchWaterPH "0" "0").pH = "8.0" ∧
    JVal.str (fetchWaterPH "0" "0").pH ≠ JVal.num 8 := by
  have hph : fetchWaterPH "0" "0" = { pH := "8.0" } := by
    simp only [fetchWaterPH, parseFloat_zero]
    have hx : (7.5 + (Real.sin ((0:ℚ):ℝ) + Real.cos ((0:ℚ):ℝ)) / 2 : ℝ) = 8 := by
      push_cast
      rw [Real.sin_zero, Real.cos_zero]
      norm_num
    rw [hx]
    have hr : round ((10:ℝ) * 8) = 80 := by
      rw [show ((10:ℝ) * 8) = ((80:ℤ):ℝ) by norm_num, round_intCast]
    simp [toFixed1, hr, renderTenths]
    decide
  rw [hph]
  exact ⟨rfl, by simp⟩

/-- C3 (amended): for parsed numeric inputs, fetchWaterPH returns the
one-decimal string rendering of round-to-tenths of
7.5 + (sin latitude + cos longitude)/2; the represented value lies in
[6.5, 8.5] and has exactly one decimal digit. -/
theorem fetchWaterPH_formula_range_one_decimal (latitude longitude : String) (a b : ℚ)
    (ha : parseFloat latitude = some a) (hb : parseFloat longitude = some b) :
    ∃ k : ℤ,
      (fetchWaterPH latitude longitude).pH = renderTenths k ∧
      k = round ((10 : ℝ) * (7.5 + (Real.sin ((a : ℚ) : ℝ) + Real.cos ((b : ℚ) : ℝ)) / 2)) ∧
      65 ≤ k ∧ k ≤ 85 ∧
      (6.5 : ℝ) ≤ (k : ℝ) / 10 ∧ ((k : ℝ) / 10) ≤ 8.5 ∧
      (toString (k % 10)).length = 1 := by
  refine ⟨round ((10 : ℝ) * (7.5 + (Real.sin ((a : ℚ) : ℝ) + Real.cos ((b : ℚ) : ℝ)) / 2)),
    ?_, rfl, ?_⟩
  · simp [fetchWaterPH, ha, hb, toFixed1]
  · have hs1 : -1 ≤ Real.sin ((a : ℚ) : ℝ) := Real.neg_one_le_sin _
    have hs2 : Real.sin ((a : ℚ) : ℝ) ≤ 1 := Real.sin_le_one _
    have hc1 : -1 ≤ Real.cos ((b : ℚ) : ℝ) := Real.neg_one_le_cos _
    have hc2 : Real.cos ((b : ℚ) : ℝ) ≤ 1 := Real.cos_le_one _
    have hk := round_bounds ((10 : ℝ) * (7.5 + (Real.sin ((a : ℚ) : ℝ) + Real.cos ((b : ℚ) : ℝ)) / 2))
      65 85 (by push_cast; linarith) (by push_cast; linarith)
    obtain ⟨hk1, hk2⟩ := hk
    refine ⟨hk1, hk2, ?_, ?_, ?_⟩
    · have : (65 : ℝ) ≤ (round ((10 : ℝ) * (7.5 + (Real.sin ((a : ℚ) : ℝ) + Real.cos ((b : ℚ) : ℝ)) / 2)) : ℝ) := by
        exact_mod_cast hk1
      linarith
    · have : ((round ((10 : ℝ) * (7.5 + (Real.sin ((a : ℚ) : ℝ) + Real.cos ((b : ℚ) : ℝ)) / 2)) : ℝ)) ≤ 85 := by
        exact_mod_cast hk2
      linarith
    · refine length_toString_digit _ (Int.emod_nonneg _ (by norm_num)) ?_
      have := Int.emod_lt_of_pos
        (round ((10 : ℝ) * (7.5 + (Real.sin ((a : ℚ) : ℝ) + Real.cos ((b : ℚ) : ℝ)) / 2)))
        (show (0:ℤ) < 10 by norm_num)
      omega

/-- Witness for C3 at latitude "0", longitude "0". -/
theorem fetchWaterPH_formula_range_one_decimal_witness :
    parseFloat "0" = some 0 ∧
    ∃ k : ℤ,
      (fetchWaterPH "0" "0").pH = renderTenths k ∧
      k = round ((10 : ℝ) * (7.5 + (Real.sin ((0 : ℚ) : ℝ) + Real.cos ((0 : ℚ) : ℝ)) / 2)) ∧
      65 ≤ k ∧ k ≤ 85 ∧
      (6.5 : ℝ) ≤ (k : ℝ) / 10 ∧ ((k : ℝ) / 10) ≤ 8.5 ∧
      (toString (k % 10)).length = 1 :=
  ⟨parseFloat_zero,
   fetchWaterPH_formula_range_one_decimal "0" "0" 0 0 parseFloat_zero parseFloat_zero⟩

/-- C4 (code bug): on the malformed latitude "abc" the pH estimator returns
the string "NaN", not the documented neutral fallback "7.0" — NaN
propagates through the arithmetic without throwing, so the catch branch
that would return 7.0 is unreachable. -/
theorem fetchWaterPH_malformed_gives_NaN :
    parseFloat "abc" = none ∧
    fetchWaterPH "abc" "0" = { pH := "NaN" } ∧ ("NaN" : String) ≠ "7.0" := by
  have h : parseFloat "abc" = none := by
    simp [parseFloat, digitsToNat, List.takeWhile, List.dropWhile]
  exact ⟨h, by simp [fetchWaterPH, h], by decide⟩

/-- C5 counterexample: with a random draw of 199/200 (a legal Math.random()
value in [0,1)), the fallback temperature is Math.round(29.95) = 30, which
lies outside the claimed half-open interval [20, 30). -/
theorem weatherFallback_temperature_reaches_30 :
    (0 : ℚ) ≤ 199/200 ∧ (199/200 : ℚ) < 1 ∧
    (fetchWeatherData none (.error ()) (199/200) 0).temperature = 30 ∧
    ¬ ((fetchWeatherData none (.error ()) (199/200) 0).temperature < 30) := by
  have hr : round ((20:ℚ) + 199/200 * 10) = 30 := by
    rw [round_eq]; norm_num
  refine ⟨by norm_num, by norm_num, ?_, ?_⟩ <;>
    simp [fetchWeatherData, truthyStr, weatherFallback, hr]

/-- C5 (amended): whenever the weather fetcher takes its fallback path
(missing credential or failed request), with random draws in [0,1), the
returned temperature is an integer in the closed interval [20, 30] and the
returned humidity is an integer in the closed interval [40, 80]. -/
theorem weatherFallback_closed_range (r1 r2 : ℚ)
    (h1 : 0 ≤ r1) (h2 : r1 < 1) (h3 : 0 ≤ r2) (h4 : r2 < 1) :
    (∀ net, fetchWeatherData none net r1 r2 = weatherFallback r1 r2) ∧
    (∀ apiKey, fetchWeatherData apiKey (.error ()) r1 r2 = weatherFallback r1 r2) ∧
    20 ≤ (weatherFallback r1 r2).temperature ∧ (weatherFallback r1 r2).temperature ≤ 30 ∧
    40 ≤ (weatherFallback r1 r2).humidity ∧ (weatherFallback r1 r2).humidity ≤ 80 ∧
    (∃ t : ℤ, (weatherFallback r1 r2).temperature = (t : ℚ)) ∧
    (∃ m : ℤ, (weatherFallback r1 r2).humidity = (m : ℚ)) := by
  obtain ⟨ht1, ht2⟩ := round_bounds ((20:ℚ) + r1 * 10) 20 30
    (by push_cast; linarith) (by push_cast; linarith)
  obtain ⟨hh1, hh2⟩ := round_bounds ((40:ℚ) + r2 * 40) 40 80
    (by push_cast; linarith) (by push_cast; linarith)
  refine ⟨?_, ?_, ?_, ?_, ?_, ?_, ⟨round ((20:ℚ) + r1 * 10), rfl⟩,
    ⟨round ((40:ℚ) + r2 * 40), rfl⟩⟩
  · intro net
    simp [fetchWeatherData, truthyStr]
  · intro apiKey
    unfold fetchWeatherData
    split
    · rfl
    · rfl
  · simp only [weatherFallback]
    exact_mod_cast ht1
  · simp only [weatherFallback]
    exact_mod_cast ht2
  · simp only [weatherFallback]
    exact_mod_cast hh1
  · simp only [weatherFallback]
    exact_mod_cast hh2

/-- Witness for C5 (amended) at the draws 1/2 and 1/2. -/
theorem weatherFallback_closed_range_witness :
    (0 : ℚ) ≤ 1/2 ∧ (1/2 : ℚ) < 1 ∧
    ((∀ net, fetchWeatherData none net (1/2) (1/2) = weatherFallback (1/2) (1/2)) ∧
    (∀ apiKey, fetchWeatherData apiKey (.error ()) (1/2) (1/2) = weatherFallback (1/2) (1/2)) ∧
    20 ≤ (weatherFallback (1/2) (1/2)).temperature ∧
    (weatherFallback (1/2) (1/2)).temperature ≤ 30 ∧
    40 ≤ (weatherFallback (1/2) (1/2)).humidity ∧
    (weatherFallback (1/2) (1/2)).humidity ≤ 80 ∧
    (∃ t : ℤ, (weatherFallback (1/2) (1/2)).temperature = (t : ℚ)) ∧
    (∃ m : ℤ, (weatherFallback (1/2) (1/2)).humidity = (m : ℚ))) :=
  ⟨by norm_num, by norm_num,
   weatherFallback_closed_range (1/2) (1/2) (by norm_num) (by norm_num)
     (by norm_num) (by norm_num)⟩

/-- C6: with an OK provider status and a positive day length, the light
intensity is 10 outside [sunrise, sunset]; inside it equals the clamped
rounded parabola in dayProgress; it is 100 at dayProgress 1/2, 10 at
dayProgress 0 and 1, and always lies in [10, 100]. -/
theorem lightIntensity_ok_curve (now sunrise sunset : ℚ) (localHour : ℤ)
    (h : sunrise < sunset) :
    (fetchLightIntensity (.ok ⟨"OK", sunrise, sunset⟩) now localHour =
      lightFromSun now sunrise sunset) ∧
    ((now < sunrise ∨ sunset < now) → lightFromSun now sunrise sunset = 10) ∧
    (sunrise ≤ now → now ≤ sunset →
      lightFromSun now sunrise sunset =
        max 10 (min 100
          (round ((100 : ℚ) * (1 - 4 * ((now - sunrise) / (sunset - sunrise) - 1/2) ^ 2))))) ∧
    ((now - sunrise) / (sunset - sunrise) = 1/2 → lightFromSun now sunrise sunset = 100) ∧
    ((now - sunrise) / (sunset - sunrise) = 0 → lightFromSun now sunrise sunset = 10) ∧
    ((now - sunrise) / (sunset - sunrise) = 1 → lightFromSun now sunrise sunset = 10) ∧
    10 ≤ lightFromSun now sunrise sunset ∧ lightFromSun now sunrise sunset ≤ 100 := by
  have hd : sunset - sunrise ≠ 0 := by linarith
  have hdpos : 0 < sunset - sunrise := by linarith
  refine ⟨by simp [fetchLightIntensity], ?_, ?_, ?_, ?_, ?_, ?_⟩
  · intro h2
    simp [lightFromSun, h2]
  · intro hn1 hn2
    unfold lightFromSun
    rw [if_neg (by push_neg; exact ⟨hn1, hn2⟩)]
  · intro hp
    have hnum : now - sunrise = (sunset - sunrise) / 2 := by
      have := (div_eq_iff hd).mp hp
      linarith
    have hn1 : sunrise ≤ now := by linarith
    have hn2 : now ≤ sunset := by linarith
    unfold lightFromSun
    rw [if_neg (by push_neg; exact ⟨hn1, hn2⟩), hp]
    norm_num [round_eq]
  · intro hp
    have hnum : now - sunrise = 0 := by
      rcases div_eq_zero_iff.mp hp with h0 | h0
      · exact h0
      · exact absurd h0 hd
    have hn1 : sunrise ≤ now := by linarith
    have hn2 : now ≤ sunset := by linarith
    unfold lightFromSun
    rw [if_neg (by push_neg; exact ⟨hn1, hn2⟩), hp]
    norm_num [round_eq]
  · intro hp
    have hnum : now - sunrise = sunset - sunrise := by
      have := (div_eq_iff hd).mp hp
      linarith
    have hn1 : sunrise ≤ now := by linarith
    have hn2 : now ≤ sunset := by linarith
    unfold lightFromSun
    rw [if_neg (by push_neg; exact ⟨hn1, hn2⟩), hp]
    norm_num [round_eq]
  · unfold lightFromSun
    split
    · exact ⟨le_refl 10, by norm_num⟩
    · exact ⟨le_max_left 10 _, max_le (by norm_num) (min_le_left 100 _)⟩

/-- Witness for C6 at sunrise 0, sunset 2, now 1 (solar noon). -/
theorem lightIntensity_ok_curve_witness :
    (0 : ℚ) < 2 ∧
    ((fetchLightIntensity (.ok ⟨"OK", 0, 2⟩) 1 12 = lightFromSun 1 0 2) ∧
    (((1 : ℚ) < 0 ∨ (2 : ℚ) < 1) → lightFromSun 1 0 2 = 10) ∧
    ((0 : ℚ) ≤ 1 → (1 : ℚ) ≤ 2 →
      lightFromSun 1 0 2 =
        max 10 (min 100
          (round ((100 : ℚ) * (1 - 4 * (((1 : ℚ) - 0) / (2 - 0) - 1/2) ^ 2))))) ∧
    (((1 : ℚ) - 0) / (2 - 0) = 1/2 → lightFromSun 1 0 2 = 100) ∧
    (((1 : ℚ) - 0) / (2 - 0) = 0 → lightFromSun 1 0 2 = 10) ∧
    (((1 : ℚ) - 0) / (2 - 0) = 1 → lightFromSun 1 0 2 = 10) ∧
    10 ≤ lightFromSun 1 0 2 ∧ lightFromSun 1 0 2 ≤ 100) :=
  ⟨by norm_num, lightIntensity_ok_curve 1 0 2 12 (by norm_num)⟩

/-- C7: a provider response whose status is not "OK" yields exactly 50; a
failed request yields the hour table on the server's local clock: 10 when
the hour is below 6 or above 18, 90 in [10, 14], and 50 otherwise. -/
theorem lightIntensity_fallbacks (st : String) (sunrise sunset now : ℚ)
    (localHour : ℤ) (hst : st ≠ "OK") :
    fetchLightIntensity (.ok ⟨st, sunrise, sunset⟩) now localHour = 50 ∧
    ((localHour < 6 ∨ 18 < localHour) →
      fetchLightIntensity (.error ()) now localHour = 10) ∧
    (10 ≤ localHour → localHour ≤ 14 →
      fetchLightIntensity (.error ()) now localHour = 90) ∧
    (¬ (localHour < 6 ∨ 18 < localHour) → ¬ (10 ≤ localHour ∧ localHour ≤ 14) →
      fetchLightIntensity (.error ()) now localHour = 50) := by
  refine ⟨by simp [fetchLightIntensity, hst], ?_, ?_, ?_⟩
  · intro h2
    simp [fetchLightIntensity, h2]
  · intro ha hb
    have hno : ¬ (localHour < 6 ∨ 18 < localHour) := by omega
    simp [fetchLightIntensity, hno, ha, hb]
  · intro h1 h2
    simp [fetchLightIntensity, h1, h2]

/-- Witness for C7 with status "INVALID_REQUEST" and local hour 7. -/
theorem lightIntensity_fallbacks_witness :
    ("INVALID_REQUEST" : String) ≠ "OK" ∧
    (fetchLightIntensity (.ok ⟨"INVALID_REQUEST", 0, 2⟩) 1 7 = 50 ∧
    (((7 : ℤ) < 6 ∨ (18 : ℤ) < 7) → fetchLightIntensity (.error ()) 1 7 = 10) ∧
    ((10 : ℤ) ≤ 7 → (7 : ℤ) ≤ 14 → fetchLightIntensity (.error ()) 1 7 = 90) ∧
    (¬ ((7 : ℤ) < 6 ∨ (18 : ℤ) < 7) → ¬ ((10 : ℤ) ≤ 7 ∧ (7 : ℤ) ≤ 14) →
      fetchLightIntensity (.error ()) 1 7 = 50)) :=
  ⟨by decide, lightIntensity_fallbacks "INVALID_REQUEST" 0 2 1 7 (by decide)⟩

/-- C8: a GET, PUT or DELETE on /marketplace/:id with a malformed
(non-ObjectId) identifier is answered 404 with the same NotFound body as a
missing listing, never 500, and the database is unchanged. -/
theorem marketplace_malformed_id_404 (db : List Listing) (id userId : String)
    (b : UpdateBody) (nowTs : ℚ) (h : isValidObjectId id = false) :
    getListingHandler db id = ⟨404, .err "Listing not found"⟩ ∧
    putListingHandler db id userId b nowTs = (⟨404, .err "Listing not found"⟩, db) ∧
    deleteListingHandler db id userId = (⟨404, .err "Listing not found"⟩, db) := by
  refine ⟨?_, ?_, ?_⟩ <;>
    simp [getListingHandler, putListingHandler, deleteListingHandler, findById, h]

/-- Witness for C8 at the identifier "not-an-id". -/
theorem marketplace_malformed_id_404_witness :
    isValidObjectId "not-an-id" = false ∧
    (getListingHandler [] "not-an-id" = ⟨404, .err "Listing not found"⟩ ∧
    putListingHandler [] "not-an-id" "u" {} 0 = (⟨404, .err "Listing not found"⟩, []) ∧
    deleteListingHandler [] "not-an-id" "u" = (⟨404, .err "Listing not found"⟩, [])) :=
  ⟨by decide, marketplace_malformed_id_404 [] "not-an-id" "u" {} 0 (by decide)⟩

/-- C9: for an existing listing and an authenticated caller who is not the
seller, PUT and DELETE return 401 and leave the database (hence the stored
document) unchanged. -/
theorem marketplace_ownership_401_unchanged (db : List Listing) (id userId : String)
    (b : UpdateBody) (nowTs : ℚ) (l : Listing)
    (hvalid : isValidObjectId id = true)
    (hfind : db.find? (fun x => x.id = id) = some l)
    (hown : l.seller ≠ userId) :
    putListingHandler db id userId b nowTs =
      (⟨401, .err "Not authorized to update this listing"⟩, db) ∧
    deleteListingHandler db id userId =
      (⟨401, .err "Not authorized to delete this listing"⟩, db) := by
  constructor <;>
    simp [putListingHandler, deleteListingHandler, findById, hvalid, hfind, hown]

/-- Witness for C9: user "userB" attempts to modify a listing owned by
"userA". -/
theorem marketplace_ownership_401_unchanged_witness :
    isValidObjectId "aaaaaaaaaaaaaaaaaaaaaaaa" = true ∧
    List.find? (fun x => x.id = "aaaaaaaaaaaaaaaaaaaaaaaa")
      [(⟨"aaaaaaaaaaaaaaaaaaaaaaaa", "userA", "t", "d", "m", 5, 1, "n", "p", "e",
        ⟨0, 0⟩, [], 0⟩ : Listing)] =
      some (⟨"aaaaaaaaaaaaaaaaaaaaaaaa", "userA", "t", "d", "m", 5, 1, "n", "p", "e",
        ⟨0, 0⟩, [], 0⟩ : Listing) ∧
    ("userA" : String) ≠ "userB" ∧
    (putListingHandler
        [(⟨"aaaaaaaaaaaaaaaaaaaaaaaa", "userA", "t", "d", "m", 5, 1, "n", "p", "e",
          ⟨0, 0⟩, [], 0⟩ : Listing)] "aaaaaaaaaaaaaaaaaaaaaaaa" "userB" {} 0 =
      (⟨401, .err "Not authorized to update this listing"⟩,
        [(⟨"aaaaaaaaaaaaaaaaaaaaaaaa", "userA", "t", "d", "m", 5, 1, "n", "p", "e",
          ⟨0, 0⟩, [], 0⟩ : Listing)]) ∧
    deleteListingHandler
        [(⟨"aaaaaaaaaaaaaaaaaaaaaaaa", "userA", "t", "d", "m", 5, 1, "n", "p", "e",
          ⟨0, 0⟩, [], 0⟩ : Listing)] "aaaaaaaaaaaaaaaaaaaaaaaa" "userB" =
      (⟨401, .err "Not authorized to delete this listing"⟩,
        [(⟨"aaaaaaaaaaaaaaaaaaaaaaaa", "userA", "t", "d", "m", 5, 1, "n", "p", "e",
          ⟨0, 0⟩, [], 0⟩ : Listing)])) :=
  ⟨rfl, rfl, by decide,
   marketplace_ownership_401_unchanged _ "aaaaaaaaaaaaaaaaaaaaaaaa" "userB" {} 0 _
     rfl rfl (by decide)⟩

/-- C10: in an owner's PUT, a supplied falsy field value (price 0,
quantity 0, or an empty-string text field) is ignored and the stored field
keeps its previous value, while contactEmail is assigned whenever present,
including the empty string. -/
theorem marketplace_put_falsy_fields_ignored (db : List Listing) (id userId : String)
    (b : UpdateBody) (nowTs : ℚ) (l : Listing)
    (hvalid : isValidObjectId id = true)
    (hfind : db.find? (fun x => x.id = id) = some l)
    (hown : l.seller = userId) :
    putListingHandler db id userId b nowTs =
      (⟨200, .listingDoc (applyUpdate l b nowTs)⟩,
        db.map fun x => if x.id = id then applyUpdate l b nowTs else x) ∧
    (b.title = some "" → (applyUpdate l b nowTs).title = l.title) ∧
    (b.description = some "" → (applyUpdate l b nowTs).description = l.description) ∧
    (b.mushroomType = some "" → (applyUpdate l b nowTs).mushroomType = l.mushroomType) ∧
    (b.price = some 0 → (applyUpdate l b nowTs).price = l.price) ∧
    (b.quantity = some 0 → (applyUpdate l b nowTs).quantity = l.quantity) ∧
    (b.contactName = some "" → (applyUpdate l b nowTs).contactName = l.contactName) ∧
    (b.contactPhone = some "" → (applyUpdate l b nowTs).contactPhone = l.contactPhone) ∧
    (∀ e : String, b.contactEmail = some e → (applyUpdate l b nowTs).contactEmail = e) := by
  refine ⟨?_, ?_, ?_, ?_, ?_, ?_, ?_, ?_, ?_⟩
  · simp [putListingHandler, findById, hvalid, hfind, hown]
  · intro hb
    simp [applyUpdate, hb]
  · intro hb
    simp [applyUpdate, hb]
  · intro hb
    simp [applyUpdate, hb]
  · intro hb
    simp [applyUpdate, hb]
  · intro hb
    simp [applyUpdate, hb]
  · intro hb
    simp [applyUpdate, hb]
  · intro hb
    simp [applyUpdate, hb]
  · intro e hb
    simp [applyUpdate, hb]

/-- Witness for C10: the owner sends title "", price 0 and contactEmail ""
for a listing with non-empty stored values. -/
theorem marketplace_put_falsy_fields_ignored_witness :
    isValidObjectId "aaaaaaaaaaaaaaaaaaaaaaaa" = true ∧
    List.find? (fun x => x.id = "aaaaaaaaaaaaaaaaaaaaaaaa")
      [(⟨"aaaaaaaaaaaaaaaaaaaaaaaa", "userA", "t", "d", "m", 5, 1, "n", "p", "e",
        ⟨0, 0⟩, [], 0⟩ : Listing)] =
      some (⟨"aaaaaaaaaaaaaaaaaaaaaaaa", "userA", "t", "d", "m", 5, 1, "n", "p", "e",
        ⟨0, 0⟩, [], 0⟩ : Listing) ∧
    ("userA" : String) = "userA" ∧
    (putListingHandler
        [(⟨"aaaaaaaaaaaaaaaaaaaaaaaa", "userA", "t", "d", "m", 5, 1, "n", "p", "e",
          ⟨0, 0⟩, [], 0⟩ : Listing)] "aaaaaaaaaaaaaaaaaaaaaaaa" "userA"
        { title := some "", price := some 0, contactEmail := some "" } 7 =
      (⟨200, .listingDoc (applyUpdate
          (⟨"aaaaaaaaaaaaaaaaaaaaaaaa", "userA", "t", "d", "m", 5, 1, "n", "p", "e",
            ⟨0, 0⟩, [], 0⟩ : Listing)
          { title := some "", price := some 0, contactEmail := some "" } 7)⟩,
        [(⟨"aaaaaaaaaaaaaaaaaaaaaaaa", "userA", "t", "d", "m", 5, 1, "n", "p", "e",
          ⟨0, 0⟩, [], 0⟩ : Listing)].map fun x =>
            if x.id = "aaaaaaaaaaaaaaaaaaaaaaaa" then
              applyUpdate
                (⟨"aaaaaaaaaaaaaaaaaaaaaaaa", "userA", "t", "d", "m", 5, 1, "n", "p", "e",
                  ⟨0, 0⟩, [], 0⟩ : Listing)
                { title := some "", price := some 0, contactEmail := some "" } 7
            else x) ∧
    (({ title := some "", price := some 0, contactEmail := some "" } : UpdateBody).title =
        some "" →
      (applyUpdate
          (⟨"aaaaaaaaaaaaaaaaaaaaaaaa", "userA", "t", "d", "m", 5, 1, "n", "p", "e",
            ⟨0, 0⟩, [], 0⟩ : Listing)
          { title := some "", price := some 0, contactEmail := some "" } 7).title = "t") ∧
    (({ title := some "", price := some 0, contactEmail := some "" } : UpdateBody).description =
        some "" →
      (applyUpdate
          (⟨"aaaaaaaaaaaaaaaaaaaaaaaa", "userA", "t", "d", "m", 5, 1, "n", "p", "e",
            ⟨0, 0⟩, [], 0⟩ : Listing)
          { title := some "", price := some 0, contactEmail := some "" } 7).description = "d") ∧
    (({ title := some "", price := some 0, contactEmail := some "" } : UpdateBody).mushroomType =
        some "" →
      (applyUpdate
          (⟨"aaaaaaaaaaaaaaaaaaaaaaaa", "userA", "t", "d", "m", 5, 1, "n", "p", "e",
            ⟨0, 0⟩, [], 0⟩ : Listing)
          { title := some "", price := some 0, contactEmail := some "" } 7).mushroomType = "m") ∧
    (({ title := some "", price := some 0, contactEmail := some "" } : UpdateBody).price =
        some 0 →
      (applyUpdate
          (⟨"aaaaaaaaaaaaaaaaaaaaaaaa", "userA", "t", "d", "m", 5, 1, "n", "p", "e",
            ⟨0, 0⟩, [], 0⟩ : Listing)
          { title := some "", price := some 0, contactEmail := some "" } 7).price = 5) ∧
    (({ title := some "", price := some 0, contactEmail := some "" } : UpdateBody).quantity =
        some 0 →
      (applyUpdate
          (⟨"aaaaaaaaaaaaaaaaaaaaaaaa", "userA", "t", "d", "m", 5, 1, "n", "p", "e",
            ⟨0, 0⟩, [], 0⟩ : Listing)
          { title := some "", price := some 0, contactEmail := some "" } 7).quantity = 1) ∧
    (({ title := some "", price := some 0, contactEmail := some "" } : UpdateBody).contactName =
        some "" →
      (applyUpdate
          (⟨"aaaaaaaaaaaaaaaaaaaaaaaa", "userA", "t", "d", "m", 5, 1, "n", "p", "e",
            ⟨0, 0⟩, [], 0⟩ : Listing)
          { title := some "", price := some 0, contactEmail := some "" } 7).contactName = "n") ∧
    (({ title := some "", price := some 0, contactEmail := some "" } : UpdateBody).contactPhone =
        some "" →
      (applyUpdate
          (⟨"aaaaaaaaaaaaaaaaaaaaaaaa", "userA", "t", "d", "m", 5, 1, "n", "p", "e",
            ⟨0, 0⟩, [], 0⟩ : Listing)
          { title := some "", price := some 0, contactEmail := some "" } 7).contactPhone = "p") ∧
    (∀ e : String,
      ({ title := some "", price := some 0, contactEmail := some "" } : UpdateBody).contactEmail =
        some e →
      (applyUpdate
          (⟨"aaaaaaaaaaaaaaaaaaaaaaaa", "userA", "t", "d", "m", 5, 1, "n", "p", "e",
            ⟨0, 0⟩, [], 0⟩ : Listing)
          { title := some "", price := some 0, contactEmail := some "" } 7).contactEmail = e)) :=
  ⟨rfl, rfl, rfl,
   marketplace_put_falsy_fields_ignored _ "aaaaaaaaaaaaaaaaaaaaaaaa" "userA"
     { title := some "", price := some 0, contactEmail := some "" } 7 _ rfl rfl rfl⟩

end MycoMentor
